import Mathlib

/-!
Verification development for the tubely video-upload pipeline
(src/api/videos.ts: handlerUploadVideo, getVideoAspectRatio,
processVideoForFastStart).

The TypeScript source is shallowly embedded as pure Lean functions.
External effects (file writes, process spawns, S3 writes, DB updates)
are recorded as an ordered event trace; the outcomes of the external
collaborators (ffmpeg exit code, ffprobe exit code and parsed output,
S3 success, DB lookup) are supplied by an environment record, so the
handler is a deterministic function of (config, environment, request).

JavaScript numbers in the probe output are modelled as rationals: the
classification tolerance (0.01) is more than 10^13 times the IEEE-754
rounding error of the quantities involved, so the rational and the
double computation agree everywhere the claims speak about.
-/

/-- JavaScript values as seen by the probe-output parser: the result of
JSON.parse plus the out-of-band value undefined produced by missing
property accesses. -/
inductive Js where
  | null : Js
  | undefined : Js
  | bool : Bool → Js
  | num : ℚ → Js
  | str : String → Js
  | arr : List Js → Js
  | obj : List (String × Js) → Js
deriving Repr

/-- The JavaScript typeof operator (note typeof null = "object"). -/
def Js.typeof : Js → String
  | .null => "object"
  | .undefined => "undefined"
  | .bool _ => "boolean"
  | .num _ => "number"
  | .str _ => "string"
  | .arr _ => "object"
  | .obj _ => "object"

/-- The JavaScript strict-equality test v === null. -/
def Js.isNull : Js → Bool
  | .null => true
  | _ => false

/-- Errors getVideoAspectRatio can surface. processError models the
explicit throw of the captured stderr text on non-zero exit;
formatError models the explicit throw of the message
"Video metadata JSON does not match expected format." (source wording,
apostrophe elided); syntaxError models an unhandled SyntaxError escaping
JSON.parse; typeError models an unhandled TypeError escaping a property
access on undefined or null. -/
inductive ProbeError where
  | processError : String → ProbeError
  | formatError : ProbeError
  | syntaxError : ProbeError
  | typeError : ProbeError
deriving DecidableEq, Repr

/-- JavaScript property access v.k: throws TypeError on null/undefined,
looks the key up on objects, and yields undefined on every other value
(no value reached by the parser exposes the probed key names). -/
def Js.getProp : Js → String → Except ProbeError Js
  | .null, _ => .error .typeError
  | .undefined, _ => .error .typeError
  | .obj fields, k =>
      .ok (match fields.lookup k with | some v => v | none => .undefined)
  | _, _ => .ok .undefined

/-- JavaScript index access v[0]: throws TypeError on null/undefined,
takes the head of an array (undefined when empty), looks the key "0" up
on a plain object, and yields undefined otherwise. -/
def Js.index0 : Js → Except ProbeError Js
  | .null => .error .typeError
  | .undefined => .error .typeError
  | .arr xs => .ok (xs.headD .undefined)
  | .obj fields =>
      .ok (match fields.lookup "0" with | some v => v | none => .undefined)
  | _ => .ok .undefined

/-- The numeric payload of a Js number (the parser only divides after
both typeof checks returned "number", so the default is never used). -/
def Js.asNum : Js → ℚ
  | .num q => q
  | _ => 0

/-- The aspect classes returned by getVideoAspectRatio. -/
inductive AspectClass where
  | portrait : AspectClass
  | landscape : AspectClass
  | other : AspectClass
deriving DecidableEq, Repr

/-- The string the handler interpolates into the storage key. -/
def AspectClass.name : AspectClass → String
  | .portrait => "portrait"
  | .landscape => "landscape"
  | .other => "other"

/-- Rational subtraction written through Rat.divInt so the kernel can
evaluate it on concrete inputs; provably equal to subtraction on ℚ. -/
def qSub (a b : ℚ) : ℚ := Rat.divInt (a.num * b.den - b.num * a.den) (a.den * b.den)

/-- JavaScript division on the rational model, written through
Rat.divInt so the kernel can evaluate it; provably equal to division
on ℚ (both send a zero divisor to the junk value 0, which the
classifier maps to other, matching what the double computation does
with the resulting Infinity or NaN). -/
def jsDiv (a b : ℚ) : ℚ := Rat.divInt (a.num * b.den) (a.den * b.num)

/-- Math.abs on the rational model of JavaScript numbers. -/
def ratAbs (q : ℚ) : ℚ := if q < 0 then -q else q

theorem qSub_eq (a b : ℚ) : qSub a b = a - b := by
  have ha : (a.den : ℚ) ≠ 0 := by exact_mod_cast a.den_nz
  have hb : (b.den : ℚ) ≠ 0 := by exact_mod_cast b.den_nz
  conv_rhs => rw [← Rat.num_div_den a, ← Rat.num_div_den b]
  rw [div_sub_div _ _ ha hb, qSub, Rat.divInt_eq_div]
  push_cast
  ring_nf

theorem jsDiv_eq (a b : ℚ) : jsDiv a b = a / b := by
  rcases eq_or_ne b 0 with hb0 | hb0
  · subst hb0
    simp [jsDiv]
  · have ha : (a.den : ℚ) ≠ 0 := by exact_mod_cast a.den_nz
    have hb : (b.den : ℚ) ≠ 0 := by exact_mod_cast b.den_nz
    have hbn : (b.num : ℚ) ≠ 0 := by exact_mod_cast Rat.num_ne_zero.mpr hb0
    conv_rhs => rw [← Rat.num_div_den a, ← Rat.num_div_den b]
    rw [jsDiv, Rat.divInt_eq_div]
    push_cast
    rw [div_div_div_eq, mul_comm ((a.den : ℚ)) ((b.num : ℚ))]

theorem ratAbs_eq (q : ℚ) : ratAbs q = |q| := by
  unfold ratAbs
  split_ifs with h
  · exact (abs_of_neg h).symm
  · exact (abs_of_nonneg (not_lt.mp h)).symm

/-- Lines 104-112 of getVideoAspectRatio: aspectRatio = height / width,
portrait when within 0.01 of 16/9, landscape when within 0.01 of 9/16,
other otherwise, checks in that order. -/
def classifyRatio (ratio : ℚ) : AspectClass :=
  if ratAbs (qSub ratio (Rat.divInt 16 9)) < Rat.divInt 1 100 then .portrait
  else if ratAbs (qSub ratio (Rat.divInt 9 16)) < Rat.divInt 1 100 then .landscape
  else .other

/-- The same membership tests with the landscape band checked first;
used only to state that the check order is irrelevant. -/
def classifyRatioLandscapeFirst (ratio : ℚ) : AspectClass :=
  if ratAbs (qSub ratio (Rat.divInt 9 16)) < Rat.divInt 1 100 then .landscape
  else if ratAbs (qSub ratio (Rat.divInt 16 9)) < Rat.divInt 1 100 then .portrait
  else .other

/-- Lines 92-112 of getVideoAspectRatio after the exit-code check: the
argument is the result of JSON.parse on the captured stdout (none when
the text is not valid JSON, in which case JSON.parse throws
SyntaxError). Mirrors the two short-circuiting validation conditions,
the streams[0] access, the width/height typeof checks and the final
classification. -/
def aspectFromOutput : Option Js → Except ProbeError AspectClass
  | none => .error .syntaxError
  | some parsed =>
    if parsed.typeof ≠ "object" then .error .formatError
    else if parsed.isNull then .error .formatError
    else
      match parsed.getProp "streams" with
      | .error e => .error e
      | .ok streams =>
        if streams.typeof ≠ "object" then .error .formatError
        else
          match streams.index0 with
          | .error e => .error e
          | .ok streamZero =>
            match streamZero.getProp "width" with
            | .error e => .error e
            | .ok w =>
              if w.typeof ≠ "number" then .error .formatError
              else
                match streamZero.getProp "height" with
                | .error e => .error e
                | .ok h =>
                  if h.typeof ≠ "number" then .error .formatError
                  else .ok (classifyRatio (jsDiv h.asNum w.asNum))

instance {ε α : Type} [DecidableEq ε] [DecidableEq α] :
    DecidableEq (Except ε α) := fun a b =>
  match a, b with
  | .ok x, .ok y => decidable_of_iff (x = y) (by simp)
  | .error x, .error y => decidable_of_iff (x = y) (by simp)
  | .ok _, .error _ => isFalse (by simp)
  | .error _, .ok _ => isFalse (by simp)

/-- A well-formed ffprobe output object carrying one video stream with
the given numeric width and height. -/
def probeJson (w h : ℚ) : Js :=
  .obj [("streams", .arr [.obj [("width", .num w), ("height", .num h)]])]

example : aspectFromOutput (some (probeJson 9 16)) = .ok .portrait := by decide
example : aspectFromOutput (some (probeJson 16 9)) = .ok .landscape := by decide
example : aspectFromOutput (some (probeJson 10 10)) = .ok .other := by decide
example : aspectFromOutput (some (Js.obj [("streams", Js.arr [])]))
    = .error .typeError := by decide
example : aspectFromOutput none = .error .syntaxError := by decide
example : classifyRatio (Rat.divInt 1778 1000) = .portrait := by decide

/-- The alphabet of the base64url encoding used by
randomBytes(32).toString("base64url"): it is exactly the URL-safe
alphabet (unpadded). -/
def base64urlAlphabet : List Char :=
  "ABCDEFGHIJKLMNOPQRSTUVWXYZabcdefghijklmnopqrstuvwxyz0123456789-_".toList

/-- Character of the base64url alphabet at a 6-bit index. -/
def b64Char (n : Nat) : Char := base64urlAlphabet.getD n 'A'

/-- Base64url encoding of a byte list, grouped 3 bytes to 4 characters,
without padding (Node buffers encode base64url unpadded). -/
def base64urlChunks : List Nat → List Char
  | b0 :: b1 :: b2 :: rest =>
      b64Char (b0 / 4) :: b64Char (b0 % 4 * 16 + b1 / 16) ::
      b64Char (b1 % 16 * 4 + b2 / 64) :: b64Char (b2 % 64) ::
      base64urlChunks rest
  | [b0, b1] =>
      [b64Char (b0 / 4), b64Char (b0 % 4 * 16 + b1 / 16), b64Char (b1 % 16 * 4)]
  | [b0] => [b64Char (b0 / 4), b64Char (b0 % 4 * 16)]
  | [] => []

def base64urlEncode (bytes : List Nat) : String := (base64urlChunks bytes).asString

/-- mediaType.slice(mediaType.indexOf("/") + 1): the part after the
first slash; when no slash occurs, indexOf gives -1 and slice(0)
returns the whole string. -/
def subtypeSegment (t : String) : String :=
  if t.toList.contains '/' then
    ((t.toList.dropWhile (fun c => c ≠ '/')).drop 1).asString
  else t

example : subtypeSegment "video/mp4" = "mp4" := by decide

/-- The inbound multipart field, when it is a File: its byte size and
declared media type. -/
structure VideoFile where
  size : Nat
  type : String
deriving DecidableEq, Repr

/-- The VideoRecord of the metadata store, restricted to the fields the
handler reads or writes. -/
structure Video where
  id : String
  userID : String
  videoURL : Option String
deriving DecidableEq, Repr

/-- The configuration fields the handler reads. -/
structure ApiConfig where
  assetsRoot : String
  s3CfDistribution : String
deriving DecidableEq, Repr

/-- An upload request after multipart decoding: the route parameter and
the form field "video" (none both when the field is missing and when it
is not a File). -/
structure UploadRequest where
  videoId : Option String
  video : Option VideoFile

/-- Outcomes of the external collaborators during one request:
the authenticated identity (validateJWT), the metadata-store lookup
(getVideo), the byte lists the crypto randomBytes source returns (the
handler requests 32 of them), the exit codes and
captured streams of the two spawned processes, the parsed JSON of the
ffprobe stdout (none when the text is not valid JSON), and the outcome
of the S3 write. -/
structure Env where
  authUserID : String
  getVideo : String → Option Video
  randomBytes : Nat → List Nat
  ffmpegExit : Nat
  ffmpegStderr : String
  ffprobeExit : Nat
  ffprobeStderr : String
  ffprobeOutput : Option Js
  s3Ok : Bool
  s3Error : String

/-- The externally visible effects of one request, in program order.
s3Write records the call to the object store; whether it succeeded is
visible in the handler result. -/
inductive Event where
  | fileWrite : String → Event
  | ffmpegSpawn : String → String → Event
  | fileCreate : String → Event
  | fileDelete : String → Event
  | ffprobeSpawn : String → Event
  | s3Write : String → String → String → Event
  | dbUpdate : Video → Event
deriving DecidableEq, Repr

/-- The errors handlerUploadVideo can surface, mirroring the error
classes thrown by the source. -/
inductive UploadError where
  | badRequest : String → UploadError
  | notFound : String → UploadError
  | forbidden : String → UploadError
  | ffmpegFailure : String → UploadError
  | probeFailure : ProbeError → UploadError
  | storageFailure : String → UploadError
deriving DecidableEq, Repr

/-- Lines 115-132: spawn ffmpeg writing inputFilePath ++ ".processed";
on non-zero exit throw Error("ffmpeg failed: " ++ stderr), else return
the output path. The fileCreate event records that a successful ffmpeg
run left the processed file on disk. -/
def processVideoForFastStart (env : Env) (inputFilePath : String) :
    Except UploadError String × List Event :=
  let outputFilePath := inputFilePath ++ ".processed"
  if env.ffmpegExit ≠ 0 then
    (.error (.ffmpegFailure ("ffmpeg failed: " ++ env.ffmpegStderr)),
      [.ffmpegSpawn inputFilePath outputFilePath])
  else
    (.ok outputFilePath,
      [.ffmpegSpawn inputFilePath outputFilePath, .fileCreate outputFilePath])

/-- Lines 75-113: spawn ffprobe on the file; on non-zero exit throw the
captured stderr text; otherwise parse stdout and classify. -/
def getVideoAspectRatio (env : Env) (filePath : String) :
    Except ProbeError AspectClass × List Event :=
  if env.ffprobeExit ≠ 0 then
    (.error (.processError env.ffprobeStderr), [.ffprobeSpawn filePath])
  else
    (aspectFromOutput env.ffprobeOutput, [.ffprobeSpawn filePath])

/-- Line 12: 1 << 30 bytes. -/
def MAX_UPLOAD_SIZE : Nat := 1 <<< 30

/-- Lines 11-73: the upload handler. Returns the thrown error or the
updated record, together with the trace of external effects in program
order. Auth (getBearerToken / validateJWT) is outside src and out of
scope of the claims, so the authenticated identity is an environment
input. path.join is modelled as slash concatenation. -/
def handlerUploadVideo (cfg : ApiConfig) (env : Env) (req : UploadRequest) :
    Except UploadError Video × List Event :=
  match req.videoId with
  | none => (.error (.badRequest "Invalid video ID"), [])
  | some videoId =>
    let userID := env.authUserID
    match env.getVideo videoId with
    | none => (.error (.notFound "Video not found."), [])
    | some videoMetadata =>
      if videoMetadata.userID ≠ userID then
        (.error (.forbidden "Forbidden."), [])
      else
        match req.video with
        | none => (.error (.badRequest "Thumbnail was not a File."), [])
        | some video =>
          if video.size > MAX_UPLOAD_SIZE then
            (.error (.badRequest "Thumbnail file size is too big."), [])
          else if video.type ≠ "video/mp4" then
            (.error (.badRequest "Bad File Type."), [])
          else
            let fileName :=
              base64urlEncode (env.randomBytes 32) ++ "." ++ subtypeSegment video.type
            let filePath := cfg.assetsRoot ++ "/" ++ fileName
            let ev0 := [Event.fileWrite filePath]
            match processVideoForFastStart env filePath with
            | (.error e, evs) => (.error e, ev0 ++ evs)
            | (.ok processedFilePath, evs) =>
              let ev1 := ev0 ++ evs ++ [Event.fileDelete filePath]
              match getVideoAspectRatio env processedFilePath with
              | (.error e, evs2) => (.error (.probeFailure e), ev1 ++ evs2)
              | (.ok aspectRatio, evs2) =>
                let fileNameWithAspectRatio := aspectRatio.name ++ "/" ++ fileName
                let ev2 := ev1 ++ evs2 ++
                  [Event.s3Write fileNameWithAspectRatio processedFilePath video.type]
                if env.s3Ok then
                  let updated := { videoMetadata with
                    videoURL :=
                      some (cfg.s3CfDistribution ++ "/" ++ fileNameWithAspectRatio) }
                  (.ok updated,
                    ev2 ++ [Event.dbUpdate updated, Event.fileDelete processedFilePath])
                else
                  (.error (.storageFailure env.s3Error), ev2)

/-- Effect of one event on the set of staged files in the assets root. -/
def applyEvent (disk : List String) : Event → List String
  | .fileWrite p => disk ++ [p]
  | .fileCreate p => disk ++ [p]
  | .fileDelete p => disk.erase p
  | _ => disk

/-- The staged files remaining after a trace. -/
def filesAfter (evs : List Event) : List String := evs.foldl applyEvent []

/-- Every intermediate disk state along a trace (including the initial
empty one). -/
def diskStates (evs : List Event) : List (List String) :=
  List.scanl applyEvent [] evs

/-- The records the trace handed to updateVideo. -/
def dbUpdates (evs : List Event) : List Video :=
  evs.filterMap fun e => match e with | .dbUpdate v => some v | _ => none

/-- The storage keys the trace published to the object store. -/
def s3Keys (evs : List Event) : List String :=
  evs.filterMap fun e => match e with | .s3Write k _ _ => some k | _ => none

/-! Helper lemmas shared by the claim theorems. -/

theorem classifyRatio_eq (r : ℚ) :
    classifyRatio r =
      if |r - 16 / 9| < 1 / 100 then AspectClass.portrait
      else if |r - 9 / 16| < 1 / 100 then AspectClass.landscape
      else AspectClass.other := by
  have h1 : ratAbs (qSub r (Rat.divInt 16 9)) = |r - 16 / 9| := by
    rw [ratAbs_eq, qSub_eq, Rat.divInt_eq_div]; norm_num
  have h2 : ratAbs (qSub r (Rat.divInt 9 16)) = |r - 9 / 16| := by
    rw [ratAbs_eq, qSub_eq, Rat.divInt_eq_div]; norm_num
  have h3 : (Rat.divInt 1 100 : ℚ) = 1 / 100 := by
    rw [Rat.divInt_eq_div]; norm_num
  unfold classifyRatio
  rw [h1, h2, h3]

theorem classifyRatioLandscapeFirst_eq (r : ℚ) :
    classifyRatioLandscapeFirst r =
      if |r - 9 / 16| < 1 / 100 then AspectClass.landscape
      else if |r - 16 / 9| < 1 / 100 then AspectClass.portrait
      else AspectClass.other := by
  have h1 : ratAbs (qSub r (Rat.divInt 16 9)) = |r - 16 / 9| := by
    rw [ratAbs_eq, qSub_eq, Rat.divInt_eq_div]; norm_num
  have h2 : ratAbs (qSub r (Rat.divInt 9 16)) = |r - 9 / 16| := by
    rw [ratAbs_eq, qSub_eq, Rat.divInt_eq_div]; norm_num
  have h3 : (Rat.divInt 1 100 : ℚ) = 1 / 100 := by
    rw [Rat.divInt_eq_div]; norm_num
  unfold classifyRatioLandscapeFirst
  rw [h1, h2, h3]

theorem portrait_landscape_disjoint (r : ℚ) :
    ¬(|r - 16 / 9| < 1 / 100 ∧ |r - 9 / 16| < 1 / 100) := by
  rintro ⟨h1, h2⟩
  rw [abs_lt] at h1 h2
  have e1 := h1.1
  have e2 := h2.2
  linarith

theorem b64Char_mem (n : Nat) (h : n < 64) : b64Char n ∈ base64urlAlphabet := by
  have hlen : base64urlAlphabet.length = 64 := by decide
  rw [b64Char, List.getD_eq_getElem]
  · apply List.getElem_mem
  · omega

theorem base64urlChunks_mem (bytes : List Nat) (hb : ∀ b ∈ bytes, b < 256) :
    ∀ c ∈ base64urlChunks bytes, c ∈ base64urlAlphabet := by
  induction bytes using base64urlChunks.induct with
  | case1 b0 b1 b2 rest ih =>
    intro c hc
    simp only [base64urlChunks, List.mem_cons] at hc
    have h0 : b0 < 256 := hb b0 (by simp)
    have h1 : b1 < 256 := hb b1 (by simp)
    have h2 : b2 < 256 := hb b2 (by simp)
    rcases hc with rfl | rfl | rfl | rfl | hc
    · exact b64Char_mem _ (by omega)
    · exact b64Char_mem _ (by omega)
    · exact b64Char_mem _ (by omega)
    · exact b64Char_mem _ (by omega)
    · exact ih (fun b hbm => hb b (by simp [hbm])) c hc
  | case2 b0 b1 =>
    intro c hc
    have h0 : b0 < 256 := hb b0 (by simp)
    have h1 : b1 < 256 := hb b1 (by simp)
    simp only [base64urlChunks, List.mem_cons, List.not_mem_nil, or_false] at hc
    rcases hc with rfl | rfl | rfl
    · exact b64Char_mem _ (by omega)
    · exact b64Char_mem _ (by omega)
    · exact b64Char_mem _ (by omega)
  | case3 b0 =>
    intro c hc
    have h0 : b0 < 256 := hb b0 (by simp)
    simp only [base64urlChunks, List.mem_cons, List.not_mem_nil, or_false] at hc
    rcases hc with rfl | rfl
    · exact b64Char_mem _ (by omega)
    · exact b64Char_mem _ (by omega)
  | case4 =>
    intro c hc
    simp [base64urlChunks] at hc

theorem base64urlChunks_length (bytes : List Nat) :
    (base64urlChunks bytes).length = (bytes.length * 4 + 2) / 3 := by
  induction bytes using base64urlChunks.induct with
  | case1 b0 b1 b2 rest ih => simp [base64urlChunks, ih]; omega
  | case2 b0 b1 => simp [base64urlChunks]
  | case3 b0 => simp [base64urlChunks]
  | case4 => simp [base64urlChunks]

/-- The name of the raw staged file (local fileName in the source). -/
def stagedName (env : Env) (vf : VideoFile) : String :=
  base64urlEncode (env.randomBytes 32) ++ "." ++ subtypeSegment vf.type

/-- The raw staged path (local filePath in the source). -/
def rawPath (cfg : ApiConfig) (env : Env) (vf : VideoFile) : String :=
  cfg.assetsRoot ++ "/" ++ stagedName env vf

/-- The normalized staged path (local processedFilePath in the source). -/
def procPath (cfg : ApiConfig) (env : Env) (vf : VideoFile) : String :=
  rawPath cfg env vf ++ ".processed"

theorem handler_ffmpegFail (cfg : ApiConfig) (env : Env) (i : String)
    (record : Video) (vf : VideoFile)
    (h : env.getVideo i = some record) (howner : record.userID = env.authUserID)
    (hsize : vf.size ≤ MAX_UPLOAD_SIZE) (htype : vf.type = "video/mp4")
    (hff : env.ffmpegExit ≠ 0) :
    handlerUploadVideo cfg env ⟨some i, some vf⟩ =
      (.error (.ffmpegFailure ("ffmpeg failed: " ++ env.ffmpegStderr)),
       [.fileWrite (rawPath cfg env vf),
        .ffmpegSpawn (rawPath cfg env vf) (procPath cfg env vf)]) := by
  simp [handlerUploadVideo, processVideoForFastStart, h, howner,
        Nat.not_lt.mpr hsize, htype, hff, rawPath, procPath, stagedName]

theorem handler_noVideoId (cfg : ApiConfig) (env : Env) (vf : Option VideoFile) :
    handlerUploadVideo cfg env ⟨none, vf⟩ =
      (.error (.badRequest "Invalid video ID"), []) := rfl

theorem handler_notFound (cfg : ApiConfig) (env : Env) (i : String)
    (vf : Option VideoFile) (h : env.getVideo i = none) :
    handlerUploadVideo cfg env ⟨some i, vf⟩ =
      (.error (.notFound "Video not found."), []) := by
  simp [handlerUploadVideo, h]

theorem handler_forbidden (cfg : ApiConfig) (env : Env) (i : String)
    (vf : Option VideoFile) (record : Video) (h : env.getVideo i = some record)
    (howner : record.userID ≠ env.authUserID) :
    handlerUploadVideo cfg env ⟨some i, vf⟩ =
      (.error (.forbidden "Forbidden."), []) := by
  simp [handlerUploadVideo, h, howner]

theorem handler_noFile (cfg : ApiConfig) (env : Env) (i : String) (record : Video)
    (h : env.getVideo i = some record) (howner : record.userID = env.authUserID) :
    handlerUploadVideo cfg env ⟨some i, none⟩ =
      (.error (.badRequest "Thumbnail was not a File."), []) := by
  simp [handlerUploadVideo, h, howner]

theorem handler_tooBig (cfg : ApiConfig) (env : Env) (i : String) (record : Video)
    (vf : VideoFile) (h : env.getVideo i = some record)
    (howner : record.userID = env.authUserID) (hsize : MAX_UPLOAD_SIZE < vf.size) :
    handlerUploadVideo cfg env ⟨some i, some vf⟩ =
      (.error (.badRequest "Thumbnail file size is too big."), []) := by
  simp [handlerUploadVideo, h, howner, hsize]

theorem handler_badType (cfg : ApiConfig) (env : Env) (i : String) (record : Video)
    (vf : VideoFile) (h : env.getVideo i = some record)
    (howner : record.userID = env.authUserID) (hsize : vf.size ≤ MAX_UPLOAD_SIZE)
    (htype : vf.type ≠ "video/mp4") :
    handlerUploadVideo cfg env ⟨some i, some vf⟩ =
      (.error (.badRequest "Bad File Type."), []) := by
  simp [handlerUploadVideo, h, howner, Nat.not_lt.mpr hsize, htype]

theorem handler_probeExitFail (cfg : ApiConfig) (env : Env) (i : String)
    (record : Video) (vf : VideoFile)
    (h : env.getVideo i = some record) (howner : record.userID = env.authUserID)
    (hsize : vf.size ≤ MAX_UPLOAD_SIZE) (htype : vf.type = "video/mp4")
    (hff : env.ffmpegExit = 0) (hpr : env.ffprobeExit ≠ 0) :
    handlerUploadVideo cfg env ⟨some i, some vf⟩ =
      (.error (.probeFailure (.processError env.ffprobeStderr)),
       [.fileWrite (rawPath cfg env vf),
        .ffmpegSpawn (rawPath cfg env vf) (procPath cfg env vf),
        .fileCreate (procPath cfg env vf),
        .fileDelete (rawPath cfg env vf),
        .ffprobeSpawn (procPath cfg env vf)]) := by
  simp [handlerUploadVideo, processVideoForFastStart, getVideoAspectRatio, h,
        howner, Nat.not_lt.mpr hsize, htype, hff, hpr, rawPath, procPath, stagedName]

theorem handler_probeParseFail (cfg : ApiConfig) (env : Env) (i : String)
    (record : Video) (vf : VideoFile) (pe : ProbeError)
    (h : env.getVideo i = some record) (howner : record.userID = env.authUserID)
    (hsize : vf.size ≤ MAX_UPLOAD_SIZE) (htype : vf.type = "video/mp4")
    (hff : env.ffmpegExit = 0) (hpr : env.ffprobeExit = 0)
    (hout : aspectFromOutput env.ffprobeOutput = .error pe) :
    handlerUploadVideo cfg env ⟨some i, some vf⟩ =
      (.error (.probeFailure pe),
       [.fileWrite (rawPath cfg env vf),
        .ffmpegSpawn (rawPath cfg env vf) (procPath cfg env vf),
        .fileCreate (procPath cfg env vf),
        .fileDelete (rawPath cfg env vf),
        .ffprobeSpawn (procPath cfg env vf)]) := by
  simp [handlerUploadVideo, processVideoForFastStart, getVideoAspectRatio, h,
        howner, Nat.not_lt.mpr hsize, htype, hff, hpr, hout,
        rawPath, procPath, stagedName]

theorem handler_s3Fail (cfg : ApiConfig) (env : Env) (i : String)
    (record : Video) (vf : VideoFile) (a : AspectClass)
    (h : env.getVideo i = some record) (howner : record.userID = env.authUserID)
    (hsize : vf.size ≤ MAX_UPLOAD_SIZE) (htype : vf.type = "video/mp4")
    (hff : env.ffmpegExit = 0) (hpr : env.ffprobeExit = 0)
    (hout : aspectFromOutput env.ffprobeOutput = .ok a) (hs3 : env.s3Ok = false) :
    handlerUploadVideo cfg env ⟨some i, some vf⟩ =
      (.error (.storageFailure env.s3Error),
       [.fileWrite (rawPath cfg env vf),
        .ffmpegSpawn (rawPath cfg env vf) (procPath cfg env vf),
        .fileCreate (procPath cfg env vf),
        .fileDelete (rawPath cfg env vf),
        .ffprobeSpawn (procPath cfg env vf),
        .s3Write (a.name ++ "/" ++ stagedName env vf) (procPath cfg env vf) vf.type]) := by
  simp [handlerUploadVideo, processVideoForFastStart, getVideoAspectRatio, h,
        howner, Nat.not_lt.mpr hsize, htype, hff, hpr, hout, hs3,
        rawPath, procPath, stagedName]

/-- The record as the success path mutates and persists it. -/
def updatedVideo (cfg : ApiConfig) (env : Env) (vf : VideoFile)
    (record : Video) (a : AspectClass) : Video :=
  { record with
    videoURL := some (cfg.s3CfDistribution ++ "/" ++ (a.name ++ "/" ++ stagedName env vf)) }

theorem handler_success (cfg : ApiConfig) (env : Env) (i : String)
    (record : Video) (vf : VideoFile) (a : AspectClass)
    (h : env.getVideo i = some record) (howner : record.userID = env.authUserID)
    (hsize : vf.size ≤ MAX_UPLOAD_SIZE) (htype : vf.type = "video/mp4")
    (hff : env.ffmpegExit = 0) (hpr : env.ffprobeExit = 0)
    (hout : aspectFromOutput env.ffprobeOutput = .ok a) (hs3 : env.s3Ok = true) :
    handlerUploadVideo cfg env ⟨some i, some vf⟩ =
      (.ok (updatedVideo cfg env vf record a),
       [.fileWrite (rawPath cfg env vf),
        .ffmpegSpawn (rawPath cfg env vf) (procPath cfg env vf),
        .fileCreate (procPath cfg env vf),
        .fileDelete (rawPath cfg env vf),
        .ffprobeSpawn (procPath cfg env vf),
        .s3Write (a.name ++ "/" ++ stagedName env vf) (procPath cfg env vf) vf.type,
        .dbUpdate (updatedVideo cfg env vf record a),
        .fileDelete (procPath cfg env vf)]) := by
  simp [handlerUploadVideo, processVideoForFastStart, getVideoAspectRatio, h,
        howner, Nat.not_lt.mpr hsize, htype, hff, hpr, hout, hs3,
        rawPath, procPath, stagedName, updatedVideo]

theorem handler_cases (cfg : ApiConfig) (env : Env) (req : UploadRequest) :
    (handlerUploadVideo cfg env req = (.error (.badRequest "Invalid video ID"), [])
      ∧ req.videoId = none)
    ∨ (∃ i, handlerUploadVideo cfg env req = (.error (.notFound "Video not found."), [])
      ∧ req.videoId = some i ∧ env.getVideo i = none)
    ∨ (∃ i record, handlerUploadVideo cfg env req = (.error (.forbidden "Forbidden."), [])
      ∧ req.videoId = some i ∧ env.getVideo i = some record ∧
      record.userID ≠ env.authUserID)
    ∨ (∃ i record,
      handlerUploadVideo cfg env req =
        (.error (.badRequest "Thumbnail was not a File."), [])
      ∧ req.videoId = some i ∧ env.getVideo i = some record ∧
      record.userID = env.authUserID ∧ req.video = none)
    ∨ (∃ i record vf,
      handlerUploadVideo cfg env req =
        (.error (.badRequest "Thumbnail file size is too big."), [])
      ∧ req.videoId = some i ∧ env.getVideo i = some record ∧
      record.userID = env.authUserID ∧ req.video = some vf ∧
      MAX_UPLOAD_SIZE < vf.size)
    ∨ (∃ i record vf,
      handlerUploadVideo cfg env req = (.error (.badRequest "Bad File Type."), [])
      ∧ req.videoId = some i ∧ env.getVideo i = some record ∧
      record.userID = env.authUserID ∧ req.video = some vf ∧
      vf.size ≤ MAX_UPLOAD_SIZE ∧ vf.type ≠ "video/mp4")
    ∨ (∃ i record vf,
      handlerUploadVideo cfg env req =
        (.error (.ffmpegFailure ("ffmpeg failed: " ++ env.ffmpegStderr)),
         [.fileWrite (rawPath cfg env vf),
          .ffmpegSpawn (rawPath cfg env vf) (procPath cfg env vf)])
      ∧ req.videoId = some i ∧ env.getVideo i = some record ∧
      record.userID = env.authUserID ∧ req.video = some vf ∧
      vf.size ≤ MAX_UPLOAD_SIZE ∧ vf.type = "video/mp4" ∧ env.ffmpegExit ≠ 0)
    ∨ (∃ i record vf,
      handlerUploadVideo cfg env req =
        (.error (.probeFailure (.processError env.ffprobeStderr)),
         [.fileWrite (rawPath cfg env vf),
          .ffmpegSpawn (rawPath cfg env vf) (procPath cfg env vf),
          .fileCreate (procPath cfg env vf),
          .fileDelete (rawPath cfg env vf),
          .ffprobeSpawn (procPath cfg env vf)])
      ∧ req.videoId = some i ∧ env.getVideo i = some record ∧
      record.userID = env.authUserID ∧ req.video = some vf ∧
      vf.size ≤ MAX_UPLOAD_SIZE ∧ vf.type = "video/mp4" ∧ env.ffmpegExit = 0 ∧
      env.ffprobeExit ≠ 0)
    ∨ (∃ i record vf pe,
      handlerUploadVideo cfg env req =
        (.error (.probeFailure pe),
         [.fileWrite (rawPath cfg env vf),
          .ffmpegSpawn (rawPath cfg env vf) (procPath cfg env vf),
          .fileCreate (procPath cfg env vf),
          .fileDelete (rawPath cfg env vf),
          .ffprobeSpawn (procPath cfg env vf)])
      ∧ req.videoId = some i ∧ env.getVideo i = some record ∧
      record.userID = env.authUserID ∧ req.video = some vf ∧
      vf.size ≤ MAX_UPLOAD_SIZE ∧ vf.type = "video/mp4" ∧ env.ffmpegExit = 0 ∧
      env.ffprobeExit = 0 ∧ aspectFromOutput env.ffprobeOutput = .error pe)
    ∨ (∃ i record vf a,
      handlerUploadVideo cfg env req =
        (.error (.storageFailure env.s3Error),
         [.fileWrite (rawPath cfg env vf),
          .ffmpegSpawn (rawPath cfg env vf) (procPath cfg env vf),
          .fileCreate (procPath cfg env vf),
          .fileDelete (rawPath cfg env vf),
          .ffprobeSpawn (procPath cfg env vf),
          .s3Write (a.name ++ "/" ++ stagedName env vf) (procPath cfg env vf) vf.type])
      ∧ req.videoId = some i ∧ env.getVideo i = some record ∧
      record.userID = env.authUserID ∧ req.video = some vf ∧
      vf.size ≤ MAX_UPLOAD_SIZE ∧ vf.type = "video/mp4" ∧ env.ffmpegExit = 0 ∧
      env.ffprobeExit = 0 ∧ aspectFromOutput env.ffprobeOutput = .ok a ∧
      env.s3Ok = false)
    ∨ (∃ i record vf a,
      handlerUploadVideo cfg env req =
        (.ok (updatedVideo cfg env vf record a),
         [.fileWrite (rawPath cfg env vf),
          .ffmpegSpawn (rawPath cfg env vf) (procPath cfg env vf),
          .fileCreate (procPath cfg env vf),
          .fileDelete (rawPath cfg env vf),
          .ffprobeSpawn (procPath cfg env vf),
          .s3Write (a.name ++ "/" ++ stagedName env vf) (procPath cfg env vf) vf.type,
          .dbUpdate (updatedVideo cfg env vf record a),
          .fileDelete (procPath cfg env vf)])
      ∧ req.videoId = some i ∧ env.getVideo i = some record ∧
      record.userID = env.authUserID ∧ req.video = some vf ∧
      vf.size ≤ MAX_UPLOAD_SIZE ∧ vf.type = "video/mp4" ∧ env.ffmpegExit = 0 ∧
      env.ffprobeExit = 0 ∧ aspectFromOutput env.ffprobeOutput = .ok a ∧
      env.s3Ok = true) := by
  obtain ⟨vidId, vfO⟩ := req
  cases vidId with
  | none => exact Or.inl ⟨handler_noVideoId cfg env vfO, rfl⟩
  | some i =>
    cases hget : env.getVideo i with
    | none =>
      exact Or.inr (Or.inl ⟨i, handler_notFound cfg env i vfO hget, rfl, hget⟩)
    | some record =>
      by_cases howner : record.userID = env.authUserID
      · cases vfO with
        | none =>
          exact Or.inr (Or.inr (Or.inr (Or.inl
            ⟨i, record, handler_noFile cfg env i record hget howner,
             rfl, hget, howner, rfl⟩)))
        | some vf =>
          by_cases hsize : MAX_UPLOAD_SIZE < vf.size
          · exact Or.inr (Or.inr (Or.inr (Or.inr (Or.inl
              ⟨i, record, vf, handler_tooBig cfg env i record vf hget howner hsize,
               rfl, hget, howner, rfl, hsize⟩))))
          · have hsz : vf.size ≤ MAX_UPLOAD_SIZE := Nat.not_lt.mp hsize
            by_cases htype : vf.type = "video/mp4"
            · by_cases hff : env.ffmpegExit = 0
              · by_cases hpr : env.ffprobeExit = 0
                · cases hout : aspectFromOutput env.ffprobeOutput with
                  | error pe =>
                    exact Or.inr (Or.inr (Or.inr (Or.inr (Or.inr (Or.inr (Or.inr
                      (Or.inr (Or.inl
                      ⟨i, record, vf, pe,
                       handler_probeParseFail cfg env i record vf pe hget howner
                         hsz htype hff hpr hout,
                       rfl, hget, howner, rfl, hsz, htype, hff, hpr, rfl⟩))))))))
                  | ok a =>
                    cases hs3 : env.s3Ok with
                    | false =>
                      exact Or.inr (Or.inr (Or.inr (Or.inr (Or.inr (Or.inr (Or.inr
                        (Or.inr (Or.inr (Or.inl
                        ⟨i, record, vf, a,
                         handler_s3Fail cfg env i record vf a hget howner
                           hsz htype hff hpr hout hs3,
                         rfl, hget, howner, rfl, hsz, htype, hff, hpr, rfl, rfl⟩)))))))))
                    | true =>
                      exact Or.inr (Or.inr (Or.inr (Or.inr (Or.inr (Or.inr (Or.inr
                        (Or.inr (Or.inr (Or.inr
                        ⟨i, record, vf, a,
                         handler_success cfg env i record vf a hget howner
                           hsz htype hff hpr hout hs3,
                         rfl, hget, howner, rfl, hsz, htype, hff, hpr, rfl, rfl⟩)))))))))
                · exact Or.inr (Or.inr (Or.inr (Or.inr (Or.inr (Or.inr (Or.inr
                    (Or.inl
                    ⟨i, record, vf,
                     handler_probeExitFail cfg env i record vf hget howner
                       hsz htype hff hpr,
                     rfl, hget, howner, rfl, hsz, htype, hff, hpr⟩)))))))
              · exact Or.inr (Or.inr (Or.inr (Or.inr (Or.inr (Or.inr (Or.inl
                  ⟨i, record, vf,
                   handler_ffmpegFail cfg env i record vf hget howner hsz htype hff,
                   rfl, hget, howner, rfl, hsz, htype, hff⟩))))))
            · exact Or.inr (Or.inr (Or.inr (Or.inr (Or.inr (Or.inl
                ⟨i, record, vf,
                 handler_badType cfg env i record vf hget howner hsz htype,
                 rfl, hget, howner, rfl, hsz, htype⟩)))))
      · exact Or.inr (Or.inr (Or.inl
          ⟨i, record, handler_forbidden cfg env i vfO record hget howner,
           rfl, hget, howner⟩))

/-! Concrete fixtures for counterexamples and witnesses. -/

def demoCfg : ApiConfig := { assetsRoot := "assets", s3CfDistribution := "https://cdn.example" }

def demoVideo : Video := { id := "v1", userID := "u1", videoURL := none }

def demoFile : VideoFile := { size := 1000, type := "video/mp4" }

def demoEnv : Env :=
  { authUserID := "u1", getVideo := fun _ => some demoVideo,
    randomBytes := fun n => List.replicate n 0,
    ffmpegExit := 0, ffmpegStderr := "", ffprobeExit := 0, ffprobeStderr := "",
    ffprobeOutput := some (probeJson 9 16), s3Ok := true, s3Error := "" }

def demoReq : UploadRequest := { videoId := some "v1", video := some demoFile }

/-- C2: for every numeric width > 0 and height > 0 in the probe output,
the classification uses ratio = height / width and returns portrait
exactly when |ratio - 16/9| < 0.01, landscape exactly when
|ratio - 9/16| < 0.01, and other otherwise; ratio 16/9 exactly gives
portrait, 9/16 exactly gives landscape, 1 gives other, and 1.778 gives
portrait. -/
theorem aspect_classification_rule (w h : ℚ) (hw : 0 < w) (hh : 0 < h) :
    aspectFromOutput (some (probeJson w h)) = .ok (classifyRatio (jsDiv h w))
    ∧ (classifyRatio (jsDiv h w) = .portrait ↔ |h / w - 16 / 9| < 1 / 100)
    ∧ (classifyRatio (jsDiv h w) = .landscape ↔ |h / w - 9 / 16| < 1 / 100)
    ∧ (classifyRatio (jsDiv h w) = .other ↔
        ¬|h / w - 16 / 9| < 1 / 100 ∧ ¬|h / w - 9 / 16| < 1 / 100)
    ∧ classifyRatio (Rat.divInt 16 9) = .portrait
    ∧ classifyRatio (Rat.divInt 9 16) = .landscape
    ∧ classifyRatio 1 = .other
    ∧ classifyRatio (Rat.divInt 1778 1000) = .portrait := by
  refine ⟨rfl, ?_, ?_, ?_, by decide, by decide, by decide, by decide⟩
  · rw [jsDiv_eq, classifyRatio_eq]
    split_ifs with h1 h2
    · exact iff_of_true rfl h1
    · exact iff_of_false (by decide) h1
    · exact iff_of_false (by decide) h1
  · rw [jsDiv_eq, classifyRatio_eq]
    split_ifs with h1 h2
    · exact iff_of_false (by decide)
        (fun hc => portrait_landscape_disjoint _ ⟨h1, hc⟩)
    · exact iff_of_true rfl h2
    · exact iff_of_false (by decide) h2
  · rw [jsDiv_eq, classifyRatio_eq]
    split_ifs with h1 h2
    · exact iff_of_false (by decide) (fun hc => hc.1 h1)
    · exact iff_of_false (by decide) (fun hc => hc.2 h2)
    · exact iff_of_true rfl ⟨h1, h2⟩

theorem aspect_classification_rule_witness :
    aspectFromOutput (some (probeJson 9 16)) = .ok (classifyRatio (jsDiv 16 9))
    ∧ (classifyRatio (jsDiv 16 9) = .portrait ↔ |(16:ℚ) / 9 - 16 / 9| < 1 / 100)
    ∧ (classifyRatio (jsDiv 16 9) = .landscape ↔ |(16:ℚ) / 9 - 9 / 16| < 1 / 100)
    ∧ (classifyRatio (jsDiv 16 9) = .other ↔
        ¬|(16:ℚ) / 9 - 16 / 9| < 1 / 100 ∧ ¬|(16:ℚ) / 9 - 9 / 16| < 1 / 100)
    ∧ classifyRatio (Rat.divInt 16 9) = .portrait
    ∧ classifyRatio (Rat.divInt 9 16) = .landscape
    ∧ classifyRatio 1 = .other
    ∧ classifyRatio (Rat.divInt 1778 1000) = .portrait :=
  aspect_classification_rule 9 16 (by decide) (by decide)

/-- C8: the portrait band |r - 16/9| < 0.01 and the landscape band
|r - 9/16| < 0.01 are disjoint, the order of the two membership checks
does not affect the classification, and any ratio outside both bands
classifies as other. -/
theorem aspect_bands_disjoint_order_irrelevant (r : ℚ) :
    ¬(|r - 16 / 9| < 1 / 100 ∧ |r - 9 / 16| < 1 / 100)
    ∧ classifyRatioLandscapeFirst r = classifyRatio r
    ∧ (classifyRatio r = .other ↔
        ¬|r - 16 / 9| < 1 / 100 ∧ ¬|r - 9 / 16| < 1 / 100) := by
  refine ⟨portrait_landscape_disjoint r, ?_, ?_⟩
  · rw [classifyRatio_eq, classifyRatioLandscapeFirst_eq]
    split_ifs with hL hP
    · exact absurd ⟨hP, hL⟩ (portrait_landscape_disjoint r)
    · rfl
    · rfl
    · rfl
  · rw [classifyRatio_eq]
    split_ifs with h1 h2
    · exact iff_of_false (by decide) (fun hc => hc.1 h1)
    · exact iff_of_false (by decide) (fun hc => hc.2 h2)
    · exact iff_of_true rfl ⟨h1, h2⟩

def demoEnvBadJson : Env := { demoEnv with ffprobeOutput := none }

def demoEnvEmptyStreams : Env :=
  { demoEnv with ffprobeOutput := some (Js.obj [("streams", Js.arr [])]) }

/-- C9: the explicit format-validation branch does not cover all
malformed exit-0 probe outputs: stdout that is not valid JSON raises
SyntaxError out of JSON.parse and a JSON object with an empty streams
array raises TypeError from reading width of the undefined first
element; neither is the declared format error. -/
theorem probe_validation_gaps :
    (getVideoAspectRatio demoEnvBadJson "f").1 = .error .syntaxError
    ∧ (getVideoAspectRatio demoEnvEmptyStreams "f").1 = .error .typeError
    ∧ ProbeError.syntaxError ≠ ProbeError.formatError
    ∧ ProbeError.typeError ≠ ProbeError.formatError := by
  refine ⟨by decide, by decide, by decide, by decide⟩

/-- C3: whenever the handler fails - at validation, ownership, staging,
normalize, probe, or publish - updateVideo is never invoked, so the
stored VideoRecord is left unmodified; the update is only reached after
a successful object-store publish. -/
theorem failure_leaves_record_unmodified (cfg : ApiConfig) (env : Env)
    (req : UploadRequest) (e : UploadError)
    (hfail : (handlerUploadVideo cfg env req).1 = .error e) :
    dbUpdates (handlerUploadVideo cfg env req).2 = [] := by
  rcases handler_cases cfg env req with
    ⟨hout, -⟩ | ⟨i, hout, -⟩ | ⟨i, r, hout, -⟩ | ⟨i, r, hout, -⟩
    | ⟨i, r, vf, hout, -⟩ | ⟨i, r, vf, hout, -⟩ | ⟨i, r, vf, hout, -⟩
    | ⟨i, r, vf, hout, -⟩ | ⟨i, r, vf, pe, hout, -⟩
    | ⟨i, r, vf, a, hout, -⟩ | ⟨i, r, vf, a, hout, -⟩
  case _ => rw [hout]; rfl
  case _ => rw [hout]; rfl
  case _ => rw [hout]; rfl
  case _ => rw [hout]; rfl
  case _ => rw [hout]; rfl
  case _ => rw [hout]; rfl
  case _ => rw [hout]; rfl
  case _ => rw [hout]; rfl
  case _ => rw [hout]; rfl
  case _ => rw [hout]; rfl
  case _ => rw [hout] at hfail; simp at hfail

def demoEnvNoRecord : Env := { demoEnv with getVideo := fun _ => none }

theorem failure_leaves_record_unmodified_witness :
    (handlerUploadVideo demoCfg demoEnvNoRecord demoReq).1
      = .error (.notFound "Video not found.")
    ∧ dbUpdates (handlerUploadVideo demoCfg demoEnvNoRecord demoReq).2 = [] :=
  ⟨by decide, failure_leaves_record_unmodified demoCfg demoEnvNoRecord demoReq
      (.notFound "Video not found.") (by decide)⟩

/-- The inbound payload is invalid: the form field is absent or not a
File, the declared size exceeds the configured maximum, or the declared
media type is not the accepted one. -/
def payloadInvalid (req : UploadRequest) : Prop :=
  match req.video with
  | none => True
  | some vf => MAX_UPLOAD_SIZE < vf.size ∨ vf.type ≠ "video/mp4"

/-- C4: a request with an invalid payload is always rejected with an
error, with an empty effect trace - no file write, no process spawn,
no object-store call; when the auth and lookup stages pass, the
rejection is a BadRequestError (client error). -/
theorem invalid_payload_rejected_without_side_effects (cfg : ApiConfig) (env : Env)
    (req : UploadRequest) (hbad : payloadInvalid req) :
    (∃ e, (handlerUploadVideo cfg env req).1 = .error e)
    ∧ (handlerUploadVideo cfg env req).2 = []
    ∧ (∀ i record, req.videoId = some i → env.getVideo i = some record →
        record.userID = env.authUserID →
        ∃ msg, (handlerUploadVideo cfg env req).1 = .error (.badRequest msg)) := by
  rcases handler_cases cfg env req with
    ⟨hout, hc⟩ | ⟨i0, hout, hc⟩ | ⟨i0, r0, hout, hc⟩ | ⟨i0, r0, hout, hc⟩
    | ⟨i0, r0, vf0, hout, hc⟩ | ⟨i0, r0, vf0, hout, hc⟩
    | ⟨i0, r0, vf0, hout, hc⟩ | ⟨i0, r0, vf0, hout, hc⟩
    | ⟨i0, r0, vf0, pe0, hout, hc⟩ | ⟨i0, r0, vf0, a0, hout, hc⟩
    | ⟨i0, r0, vf0, a0, hout, hc⟩
  case _ =>
    refine ⟨⟨_, by rw [hout]⟩, by rw [hout], fun i record hvi hgv ho => ?_⟩
    rw [hc] at hvi; cases hvi
  case _ =>
    obtain ⟨hvi0, hgv0⟩ := hc
    refine ⟨⟨_, by rw [hout]⟩, by rw [hout], fun i record hvi hgv ho => ?_⟩
    rw [hvi0] at hvi; injection hvi with hii; subst hii
    rw [hgv0] at hgv; cases hgv
  case _ =>
    obtain ⟨hvi0, hgv0, hne0⟩ := hc
    refine ⟨⟨_, by rw [hout]⟩, by rw [hout], fun i record hvi hgv ho => ?_⟩
    rw [hvi0] at hvi; injection hvi with hii; subst hii
    rw [hgv0] at hgv; injection hgv with hrr; subst hrr
    exact absurd ho hne0
  case _ =>
    exact ⟨⟨_, by rw [hout]⟩, by rw [hout],
      fun i record hvi hgv ho => ⟨_, by rw [hout]⟩⟩
  case _ =>
    exact ⟨⟨_, by rw [hout]⟩, by rw [hout],
      fun i record hvi hgv ho => ⟨_, by rw [hout]⟩⟩
  case _ =>
    exact ⟨⟨_, by rw [hout]⟩, by rw [hout],
      fun i record hvi hgv ho => ⟨_, by rw [hout]⟩⟩
  case _ =>
    obtain ⟨-, -, -, hvid, hsz, hty, -⟩ := hc
    exfalso
    simp only [payloadInvalid, hvid] at hbad
    rcases hbad with hb | hb
    · exact absurd hb (Nat.not_lt.mpr hsz)
    · exact hb hty
  case _ =>
    obtain ⟨-, -, -, hvid, hsz, hty, -, -⟩ := hc
    exfalso
    simp only [payloadInvalid, hvid] at hbad
    rcases hbad with hb | hb
    · exact absurd hb (Nat.not_lt.mpr hsz)
    · exact hb hty
  case _ =>
    obtain ⟨-, -, -, hvid, hsz, hty, -, -, -⟩ := hc
    exfalso
    simp only [payloadInvalid, hvid] at hbad
    rcases hbad with hb | hb
    · exact absurd hb (Nat.not_lt.mpr hsz)
    · exact hb hty
  case _ =>
    obtain ⟨-, -, -, hvid, hsz, hty, -, -, -, -⟩ := hc
    exfalso
    simp only [payloadInvalid, hvid] at hbad
    rcases hbad with hb | hb
    · exact absurd hb (Nat.not_lt.mpr hsz)
    · exact hb hty
  case _ =>
    obtain ⟨-, -, -, hvid, hsz, hty, -, -, -, -⟩ := hc
    exfalso
    simp only [payloadInvalid, hvid] at hbad
    rcases hbad with hb | hb
    · exact absurd hb (Nat.not_lt.mpr hsz)
    · exact hb hty

def demoFileTooBig : VideoFile := { size := (1 <<< 30) + 1, type := "video/mp4" }

def demoReqTooBig : UploadRequest := { videoId := some "v1", video := some demoFileTooBig }

theorem invalid_payload_rejected_witness :
    (∃ e, (handlerUploadVideo demoCfg demoEnv demoReqTooBig).1 = .error e)
    ∧ (handlerUploadVideo demoCfg demoEnv demoReqTooBig).2 = []
    ∧ (∀ i record, demoReqTooBig.videoId = some i →
        demoEnv.getVideo i = some record →
        record.userID = demoEnv.authUserID →
        ∃ msg, (handlerUploadVideo demoCfg demoEnv demoReqTooBig).1 =
          .error (.badRequest msg)) :=
  invalid_payload_rejected_without_side_effects demoCfg demoEnv demoReqTooBig
    (Or.inl (by decide))

/-- C6: the handler fetches the record by id, fails with NotFound when
absent and Forbidden when the authenticated identity differs from the
owner, and this check runs before any staging or publishing: a run with
a nonempty effect trace implies the lookup succeeded and the owner
matched. -/
theorem ownership_check_before_staging (cfg : ApiConfig) (env : Env) (i : String)
    (vfO : Option VideoFile) :
    (env.getVideo i = none →
      handlerUploadVideo cfg env ⟨some i, vfO⟩ =
        (.error (.notFound "Video not found."), []))
    ∧ (∀ record, env.getVideo i = some record → record.userID ≠ env.authUserID →
      handlerUploadVideo cfg env ⟨some i, vfO⟩ =
        (.error (.forbidden "Forbidden."), []))
    ∧ ((handlerUploadVideo cfg env ⟨some i, vfO⟩).2 ≠ [] →
      ∃ record, env.getVideo i = some record ∧ record.userID = env.authUserID) := by
  refine ⟨fun h => handler_notFound cfg env i vfO h,
          fun record h hne => handler_forbidden cfg env i vfO record h hne, ?_⟩
  intro hne
  rcases handler_cases cfg env ⟨some i, vfO⟩ with
    ⟨hout, -⟩ | ⟨i0, hout, -⟩ | ⟨i0, r0, hout, -⟩ | ⟨i0, r0, hout, -⟩
    | ⟨i0, r0, vf0, hout, -⟩ | ⟨i0, r0, vf0, hout, -⟩
    | ⟨i0, r0, vf0, hout, hc⟩ | ⟨i0, r0, vf0, hout, hc⟩
    | ⟨i0, r0, vf0, pe0, hout, hc⟩ | ⟨i0, r0, vf0, a0, hout, hc⟩
    | ⟨i0, r0, vf0, a0, hout, hc⟩
  case _ => rw [hout] at hne; simp at hne
  case _ => rw [hout] at hne; simp at hne
  case _ => rw [hout] at hne; simp at hne
  case _ => rw [hout] at hne; simp at hne
  case _ => rw [hout] at hne; simp at hne
  case _ => rw [hout] at hne; simp at hne
  case _ =>
    obtain ⟨hvi0, hgv0, how0, -⟩ := hc
    have hii : some i = some i0 := hvi0
    injection hii with hii0; subst hii0
    exact ⟨r0, hgv0, how0⟩
  case _ =>
    obtain ⟨hvi0, hgv0, how0, -⟩ := hc
    have hii : some i = some i0 := hvi0
    injection hii with hii0; subst hii0
    exact ⟨r0, hgv0, how0⟩
  case _ =>
    obtain ⟨hvi0, hgv0, how0, -⟩ := hc
    have hii : some i = some i0 := hvi0
    injection hii with hii0; subst hii0
    exact ⟨r0, hgv0, how0⟩
  case _ =>
    obtain ⟨hvi0, hgv0, how0, -⟩ := hc
    have hii : some i = some i0 := hvi0
    injection hii with hii0; subst hii0
    exact ⟨r0, hgv0, how0⟩
  case _ =>
    obtain ⟨hvi0, hgv0, how0, -⟩ := hc
    have hii : some i = some i0 := hvi0
    injection hii with hii0; subst hii0
    exact ⟨r0, hgv0, how0⟩

theorem ownership_check_before_staging_witness :
    (demoEnvNoRecord.getVideo "v1" = none →
      handlerUploadVideo demoCfg demoEnvNoRecord ⟨some "v1", some demoFile⟩ =
        (.error (.notFound "Video not found."), []))
    ∧ (∀ record, demoEnvNoRecord.getVideo "v1" = some record →
      record.userID ≠ demoEnvNoRecord.authUserID →
      handlerUploadVideo demoCfg demoEnvNoRecord ⟨some "v1", some demoFile⟩ =
        (.error (.forbidden "Forbidden."), []))
    ∧ ((handlerUploadVideo demoCfg demoEnvNoRecord ⟨some "v1", some demoFile⟩).2 ≠ [] →
      ∃ record, demoEnvNoRecord.getVideo "v1" = some record ∧
        record.userID = demoEnvNoRecord.authUserID) :=
  ownership_check_before_staging demoCfg demoEnvNoRecord "v1" (some demoFile)

/-- C10: the size check is a strict comparison against the 1 << 30 byte
maximum: the oversized rejection fires exactly when size exceeds the
maximum, so a payload of exactly 1 << 30 bytes passes the size check. -/
theorem size_check_strict_inequality (cfg : ApiConfig) (env : Env) (i : String)
    (record : Video) (vf : VideoFile)
    (hget : env.getVideo i = some record) (howner : record.userID = env.authUserID) :
    MAX_UPLOAD_SIZE = 2 ^ 30
    ∧ ((handlerUploadVideo cfg env ⟨some i, some vf⟩).1 =
        .error (.badRequest "Thumbnail file size is too big.")
      ↔ MAX_UPLOAD_SIZE < vf.size) := by
  refine ⟨by decide, ?_, ?_⟩
  · intro hmsg
    by_contra hnot
    have hsz : vf.size ≤ MAX_UPLOAD_SIZE := Nat.not_lt.mp hnot
    rcases handler_cases cfg env ⟨some i, some vf⟩ with
      ⟨hout, hc⟩ | ⟨i0, hout, hc⟩ | ⟨i0, r0, hout, hc⟩ | ⟨i0, r0, hout, hc⟩
      | ⟨i0, r0, vf0, hout, hc⟩ | ⟨i0, r0, vf0, hout, hc⟩
      | ⟨i0, r0, vf0, hout, hc⟩ | ⟨i0, r0, vf0, hout, hc⟩
      | ⟨i0, r0, vf0, pe0, hout, hc⟩ | ⟨i0, r0, vf0, a0, hout, hc⟩
      | ⟨i0, r0, vf0, a0, hout, hc⟩
    case _ => cases hc
    case _ =>
      obtain ⟨hvi0, hgv0⟩ := hc
      have hii : some i = some i0 := hvi0
      injection hii with hii0; subst hii0
      rw [hget] at hgv0; cases hgv0
    case _ =>
      obtain ⟨hvi0, hgv0, how0⟩ := hc
      have hii : some i = some i0 := hvi0
      injection hii with hii0; subst hii0
      rw [hget] at hgv0; injection hgv0 with hrr; subst hrr
      exact absurd howner how0
    case _ =>
      obtain ⟨-, -, -, hvid⟩ := hc
      have : (some vf : Option VideoFile) = none := hvid
      cases this
    case _ =>
      obtain ⟨-, -, -, hvid, hbig⟩ := hc
      have hvv : some vf = some vf0 := hvid
      injection hvv with hvv0; subst hvv0
      exact absurd hbig hnot
    case _ => rw [hout] at hmsg; simp at hmsg
    case _ => rw [hout] at hmsg; simp at hmsg
    case _ => rw [hout] at hmsg; simp at hmsg
    case _ => rw [hout] at hmsg; simp at hmsg
    case _ => rw [hout] at hmsg; simp at hmsg
    case _ => rw [hout] at hmsg; simp at hmsg
  · intro hsize
    rw [handler_tooBig cfg env i record vf hget howner hsize]

def demoFileExactMax : VideoFile := { size := 1 <<< 30, type := "video/mp4" }

theorem size_check_strict_inequality_witness :
    MAX_UPLOAD_SIZE = 2 ^ 30
    ∧ ((handlerUploadVideo demoCfg demoEnv ⟨some "v1", some demoFileExactMax⟩).1 =
        .error (.badRequest "Thumbnail file size is too big.")
      ↔ MAX_UPLOAD_SIZE < demoFileExactMax.size) :=
  size_check_strict_inequality demoCfg demoEnv "v1" demoVideo demoFileExactMax
    (by decide) (by decide)

def demoEnvFfmpegFail : Env := { demoEnv with ffmpegExit := 1, ffmpegStderr := "boom" }

/-- C1 counterexample: with a request that passes validation and an
ffmpeg (Media Normalizer) run that exits non-zero, the handler
propagates the failure while the raw staged file is still on disk -
no deletion happens on the failure path. -/
theorem cleanup_on_failure_counterexample :
    (handlerUploadVideo demoCfg demoEnvFfmpegFail demoReq).1 =
      .error (.ffmpegFailure "ffmpeg failed: boom")
    ∧ filesAfter (handlerUploadVideo demoCfg demoEnvFfmpegFail demoReq).2 =
      [rawPath demoCfg demoEnvFfmpegFail demoFile]
    ∧ filesAfter (handlerUploadVideo demoCfg demoEnvFfmpegFail demoReq).2 ≠ [] := by
  refine ⟨by decide, by decide, by decide⟩

/-- C1 amended: staged files are cleaned up only on the success path:
a normalize failure leaves exactly the raw staged file behind, a probe
or publish failure leaves exactly the normalized staged file behind,
and only a fully successful run ends with zero staged files. -/
theorem staged_file_cleanup_by_stage (cfg : ApiConfig) (env : Env) (i : String)
    (record : Video) (vf : VideoFile)
    (hget : env.getVideo i = some record) (howner : record.userID = env.authUserID)
    (hsize : vf.size ≤ MAX_UPLOAD_SIZE) (htype : vf.type = "video/mp4") :
    (env.ffmpegExit ≠ 0 →
      filesAfter (handlerUploadVideo cfg env ⟨some i, some vf⟩).2 =
        [rawPath cfg env vf])
    ∧ (env.ffmpegExit = 0 → env.ffprobeExit ≠ 0 →
      filesAfter (handlerUploadVideo cfg env ⟨some i, some vf⟩).2 =
        [procPath cfg env vf])
    ∧ (∀ pe, env.ffmpegExit = 0 → env.ffprobeExit = 0 →
      aspectFromOutput env.ffprobeOutput = .error pe →
      filesAfter (handlerUploadVideo cfg env ⟨some i, some vf⟩).2 =
        [procPath cfg env vf])
    ∧ (∀ a, env.ffmpegExit = 0 → env.ffprobeExit = 0 →
      aspectFromOutput env.ffprobeOutput = .ok a → env.s3Ok = false →
      filesAfter (handlerUploadVideo cfg env ⟨some i, some vf⟩).2 =
        [procPath cfg env vf])
    ∧ (∀ a, env.ffmpegExit = 0 → env.ffprobeExit = 0 →
      aspectFromOutput env.ffprobeOutput = .ok a → env.s3Ok = true →
      filesAfter (handlerUploadVideo cfg env ⟨some i, some vf⟩).2 = []) := by
  refine ⟨?_, ?_, ?_, ?_, ?_⟩
  · intro hff
    rw [handler_ffmpegFail cfg env i record vf hget howner hsize htype hff]
    simp [filesAfter, applyEvent]
  · intro hff hpr
    rw [handler_probeExitFail cfg env i record vf hget howner hsize htype hff hpr]
    simp [filesAfter, applyEvent]
  · intro pe hff hpr hout
    rw [handler_probeParseFail cfg env i record vf pe hget howner hsize htype
      hff hpr hout]
    simp [filesAfter, applyEvent]
  · intro a hff hpr hout hs3
    rw [handler_s3Fail cfg env i record vf a hget howner hsize htype hff hpr hout hs3]
    simp [filesAfter, applyEvent]
  · intro a hff hpr hout hs3
    rw [handler_success cfg env i record vf a hget howner hsize htype hff hpr hout hs3]
    simp [filesAfter, applyEvent]

theorem staged_file_cleanup_by_stage_witness :
    (demoEnv.ffmpegExit ≠ 0 →
      filesAfter (handlerUploadVideo demoCfg demoEnv ⟨some "v1", some demoFile⟩).2 =
        [rawPath demoCfg demoEnv demoFile])
    ∧ (demoEnv.ffmpegExit = 0 → demoEnv.ffprobeExit ≠ 0 →
      filesAfter (handlerUploadVideo demoCfg demoEnv ⟨some "v1", some demoFile⟩).2 =
        [procPath demoCfg demoEnv demoFile])
    ∧ (∀ pe, demoEnv.ffmpegExit = 0 → demoEnv.ffprobeExit = 0 →
      aspectFromOutput demoEnv.ffprobeOutput = .error pe →
      filesAfter (handlerUploadVideo demoCfg demoEnv ⟨some "v1", some demoFile⟩).2 =
        [procPath demoCfg demoEnv demoFile])
    ∧ (∀ a, demoEnv.ffmpegExit = 0 → demoEnv.ffprobeExit = 0 →
      aspectFromOutput demoEnv.ffprobeOutput = .ok a → demoEnv.s3Ok = false →
      filesAfter (handlerUploadVideo demoCfg demoEnv ⟨some "v1", some demoFile⟩).2 =
        [procPath demoCfg demoEnv demoFile])
    ∧ (∀ a, demoEnv.ffmpegExit = 0 → demoEnv.ffprobeExit = 0 →
      aspectFromOutput demoEnv.ffprobeOutput = .ok a → demoEnv.s3Ok = true →
      filesAfter (handlerUploadVideo demoCfg demoEnv ⟨some "v1", some demoFile⟩).2 =
        []) :=
  staged_file_cleanup_by_stage demoCfg demoEnv "v1" demoVideo demoFile
    (by decide) (by decide) (by decide) (by decide)

/-- C5: on every successful upload the storage key has the exact shape
class/token.ext: class is the derived AspectClass name, token is the
base64url encoding of the 32 bytes (256 bits) drawn once from the
crypto random source, with every character in the URL-safe alphabet,
and ext is the subtype segment of the declared media type. -/
theorem storage_key_shape (cfg : ApiConfig) (env : Env) (req : UploadRequest)
    (u : Video) (hok : (handlerUploadVideo cfg env req).1 = .ok u)
    (hlen : (env.randomBytes 32).length = 32)
    (hbytes : ∀ b ∈ env.randomBytes 32, b < 256) :
    ∃ a : AspectClass, ∃ vf : VideoFile, req.video = some vf ∧
      vf.type = "video/mp4"
      ∧ s3Keys (handlerUploadVideo cfg env req).2 =
        [a.name ++ "/" ++ (base64urlEncode (env.randomBytes 32) ++ "." ++
          subtypeSegment vf.type)]
      ∧ subtypeSegment vf.type = "mp4"
      ∧ (base64urlEncode (env.randomBytes 32)).length = 43
      ∧ ∀ c ∈ (base64urlEncode (env.randomBytes 32)).toList,
          c ∈ base64urlAlphabet := by
  rcases handler_cases cfg env req with
    ⟨hout, -⟩ | ⟨i0, hout, -⟩ | ⟨i0, r0, hout, -⟩ | ⟨i0, r0, hout, -⟩
    | ⟨i0, r0, vf0, hout, -⟩ | ⟨i0, r0, vf0, hout, -⟩ | ⟨i0, r0, vf0, hout, -⟩
    | ⟨i0, r0, vf0, hout, -⟩ | ⟨i0, r0, vf0, pe0, hout, -⟩
    | ⟨i0, r0, vf0, a0, hout, -⟩ | ⟨i0, r0, vf0, a0, hout, hc⟩
  case _ => rw [hout] at hok; simp at hok
  case _ => rw [hout] at hok; simp at hok
  case _ => rw [hout] at hok; simp at hok
  case _ => rw [hout] at hok; simp at hok
  case _ => rw [hout] at hok; simp at hok
  case _ => rw [hout] at hok; simp at hok
  case _ => rw [hout] at hok; simp at hok
  case _ => rw [hout] at hok; simp at hok
  case _ => rw [hout] at hok; simp at hok
  case _ => rw [hout] at hok; simp at hok
  case _ =>
    obtain ⟨-, -, -, hvid, -, hty, -⟩ := hc
    refine ⟨a0, vf0, hvid, hty, ?_, ?_, ?_, ?_⟩
    · rw [hout]
      simp [s3Keys, stagedName]
    · rw [hty]; decide
    · show (base64urlChunks (env.randomBytes 32)).length = 43
      rw [base64urlChunks_length, hlen]
    · intro c hc2
      have hl : (base64urlEncode (env.randomBytes 32)).toList =
        base64urlChunks (env.randomBytes 32) := rfl
      rw [hl] at hc2
      exact base64urlChunks_mem _ hbytes c hc2

theorem storage_key_shape_witness :
    ∃ a : AspectClass, ∃ vf : VideoFile, demoReq.video = some vf ∧
      vf.type = "video/mp4"
      ∧ s3Keys (handlerUploadVideo demoCfg demoEnv demoReq).2 =
        [a.name ++ "/" ++ (base64urlEncode (demoEnv.randomBytes 32) ++ "." ++
          subtypeSegment vf.type)]
      ∧ subtypeSegment vf.type = "mp4"
      ∧ (base64urlEncode (demoEnv.randomBytes 32)).length = 43
      ∧ ∀ c ∈ (base64urlEncode (demoEnv.randomBytes 32)).toList,
          c ∈ base64urlAlphabet :=
  storage_key_shape demoCfg demoEnv demoReq
    (updatedVideo demoCfg demoEnv demoFile demoVideo .portrait)
    (by decide) (by decide) (by decide)

/-- C7: within one upload the stages run strictly sequentially in the
order stage, normalize, probe, publish, commit; the prober runs on the
processed file, the raw staged file is deleted before the processed
file is used downstream, and at most two staged files coexist at any
point of the run. -/
theorem pipeline_sequential_order (cfg : ApiConfig) (env : Env) (req : UploadRequest)
    (u : Video) (hok : (handlerUploadVideo cfg env req).1 = .ok u) :
    (∃ i record vf a, req.videoId = some i ∧ req.video = some vf ∧
      env.getVideo i = some record ∧ aspectFromOutput env.ffprobeOutput = .ok a ∧
      (handlerUploadVideo cfg env req).2 =
        [.fileWrite (rawPath cfg env vf),
         .ffmpegSpawn (rawPath cfg env vf) (procPath cfg env vf),
         .fileCreate (procPath cfg env vf),
         .fileDelete (rawPath cfg env vf),
         .ffprobeSpawn (procPath cfg env vf),
         .s3Write (a.name ++ "/" ++ stagedName env vf) (procPath cfg env vf) vf.type,
         .dbUpdate u,
         .fileDelete (procPath cfg env vf)])
    ∧ ∀ d ∈ diskStates (handlerUploadVideo cfg env req).2, d.length ≤ 2 := by
  rcases handler_cases cfg env req with
    ⟨hout, -⟩ | ⟨i0, hout, -⟩ | ⟨i0, r0, hout, -⟩ | ⟨i0, r0, hout, -⟩
    | ⟨i0, r0, vf0, hout, -⟩ | ⟨i0, r0, vf0, hout, -⟩ | ⟨i0, r0, vf0, hout, -⟩
    | ⟨i0, r0, vf0, hout, -⟩ | ⟨i0, r0, vf0, pe0, hout, -⟩
    | ⟨i0, r0, vf0, a0, hout, -⟩ | ⟨i0, r0, vf0, a0, hout, hc⟩
  case _ => rw [hout] at hok; simp at hok
  case _ => rw [hout] at hok; simp at hok
  case _ => rw [hout] at hok; simp at hok
  case _ => rw [hout] at hok; simp at hok
  case _ => rw [hout] at hok; simp at hok
  case _ => rw [hout] at hok; simp at hok
  case _ => rw [hout] at hok; simp at hok
  case _ => rw [hout] at hok; simp at hok
  case _ => rw [hout] at hok; simp at hok
  case _ => rw [hout] at hok; simp at hok
  case _ =>
    obtain ⟨hvi0, hgv0, -, hvid, -, -, -, -, hasp, -⟩ := hc
    have huu : (Except.ok (updatedVideo cfg env vf0 r0 a0) :
        Except UploadError Video) = Except.ok u := by
      rw [← hok, hout]
    injection huu with huu0
    constructor
    · exact ⟨i0, r0, vf0, a0, hvi0, hvid, hgv0, hasp, by rw [hout, ← huu0]⟩
    · rw [hout]
      intro d hd
      simp only [diskStates, List.scanl, applyEvent, List.nil_append,
        List.cons_append, List.append_nil, List.erase_cons_head,
        List.mem_cons, List.not_mem_nil, or_false] at hd
      rcases hd with rfl | rfl | rfl | rfl | rfl | rfl | rfl | rfl | rfl
      all_goals simp

theorem pipeline_sequential_order_witness :
    (∃ i record vf a, demoReq.videoId = some i ∧ demoReq.video = some vf ∧
      demoEnv.getVideo i = some record ∧
      aspectFromOutput demoEnv.ffprobeOutput = .ok a ∧
      (handlerUploadVideo demoCfg demoEnv demoReq).2 =
        [.fileWrite (rawPath demoCfg demoEnv vf),
         .ffmpegSpawn (rawPath demoCfg demoEnv vf) (procPath demoCfg demoEnv vf),
         .fileCreate (procPath demoCfg demoEnv vf),
         .fileDelete (rawPath demoCfg demoEnv vf),
         .ffprobeSpawn (procPath demoCfg demoEnv vf),
         .s3Write (a.name ++ "/" ++ stagedName demoEnv vf)
           (procPath demoCfg demoEnv vf) vf.type,
         .dbUpdate (updatedVideo demoCfg demoEnv demoFile demoVideo .portrait),
         .fileDelete (procPath demoCfg demoEnv vf)])
    ∧ ∀ d ∈ diskStates (handlerUploadVideo demoCfg demoEnv demoReq).2,
        d.length ≤ 2 :=
  pipeline_sequential_order demoCfg demoEnv demoReq
    (updatedVideo demoCfg demoEnv demoFile demoVideo .portrait) (by decide)
